import Mathlib

/-!
Verification development for the pywebdavserver backend-configuration store
and provider-resolution dispatcher (src/pywebdavserver/config.py and
src/pywebdavserver/cli.py).

Modelling conventions:
* Python dictionaries are modelled as association lists with unique keys,
  preserving insertion order (Python dict semantics).
* Python values that may flow through a configuration record are modelled by
  the inductive `Value` (strings, integers, floats carried opaquely, booleans,
  and the Python `None`).  No float arithmetic happens in this core, so floats
  are carried as an opaque integer payload.
* `sys.exit(1)` together with the diagnostic text printed on the way out is
  modelled by `DispatchResult.fatal`; a successful handoff to the external
  server bootstrap (`run_webdav_server`) is modelled by `DispatchResult.started`
  carrying the constructed provider and the effective connection parameters.
* Logging configuration, the `--verbose` flag and purely informational console
  output are outside the model; warnings from credential resolution are kept,
  because the spec makes claims about them.
-/

namespace PyWebDAVServer

/-- Python value carried by a configuration record: string, int, float
(opaque payload, no arithmetic is performed on it in this core), bool, or
`None`. -/
inductive Value where
  | vstr : String → Value
  | vint : Int → Value
  | vfloat : Int → Value
  | vbool : Bool → Value
  | vnone : Value
deriving DecidableEq, Repr

/-- Python truthiness of a `Value` (`if not api_key:` style tests). -/
def Value.truthy : Value → Bool
  | .vstr s => s ≠ ""
  | .vint n => n ≠ 0
  | .vfloat n => n ≠ 0
  | .vbool b => b
  | .vnone => false

/-- Python `str()` of a `Value`, used only to build display labels.  The
rendering of floats is approximated (the label text is not load-bearing for
any claim). -/
def Value.pyStr : Value → String
  | .vstr s => s
  | .vint n => toString n
  | .vfloat n => toString n
  | .vbool b => if b then "True" else "False"
  | .vnone => "None"

/-- `dict.get k` on an association list (first binding wins, matching the
unique-key invariant of a Python dict). -/
def alookup {α : Type} : List (String × α) → String → Option α
  | [], _ => none
  | p :: rest, k => if p.1 = k then some p.2 else alookup rest k

/-- `d[k] = v` on a Python dict: update in place if the key exists (keeping
its position), otherwise append. -/
def dictInsert {α : Type} : List (String × α) → String → α → List (String × α)
  | [], k, v => [(k, v)]
  | p :: rest, k, v => if p.1 = k then (k, v) :: rest else p :: dictInsert rest k v

/-- `{**d, **e}` on Python dicts: insert the bindings of `e` into `d` in
order. -/
def dictUnion {α : Type} (d e : List (String × α)) : List (String × α) :=
  e.foldl (fun acc p => dictInsert acc p.1 p.2) d

/-!
## Secret codec

Modelled from the spec: the codec itself lives in the external `vaultconfig`
package (imported by src/pywebdavserver/config.py as `from vaultconfig import
obscure`), so its code is not under src/.  The spec contract (section 4.1) is:
`obscure` is a deterministic reversible encoding, `reveal` inverts it and
fails cleanly on a value not produced by `obscure` (Python `ValueError`,
modelled as `none`), and `is_obscured` is a pure predicate recognising encoded
values.  We realise the contract with a tag-prefix encoding at the character
list level.
-/

/-- Modelled from the spec: the marker distinguishing obscured tokens from
plaintext. -/
def obscureTagChars : List Char := ['V', 'C', '2', ':']

/-- Modelled from the spec: `obscure(plaintext) -> token`, deterministic and
reversible. -/
def obscure (s : String) : String :=
  String.mk (obscureTagChars ++ s.data)

/-- Modelled from the spec: `is_obscured(value) -> bool`, a pure predicate
that never throws. -/
def is_obscured (s : String) : Bool :=
  decide (s.data.take obscureTagChars.length = obscureTagChars)

/-- Modelled from the spec: `reveal(token) -> plaintext`, failing (Python
`ValueError`, here `none`) on input not produced by `obscure`. -/
def reveal (s : String) : Option String :=
  if is_obscured s then some (String.mk (s.data.drop obscureTagChars.length)) else none

/-- The sensitive keys of config.py (`("password", "api_key",
"drime_password")`). -/
def sensitiveKeys : List String := ["password", "api_key", "drime_password"]

/-!
## BackendConfig (config.py lines 22-77)
-/

/-- `BackendConfig`: adapter over one stored record.  `backend_type` is kept
as a `Value` because Python does not constrain the type tag popped from the
stored data. -/
structure BackendConfig where
  name : String
  backend_type : Value
  config : List (String × Value)
deriving DecidableEq, Repr

/-- `BackendConfig.get` (config.py lines 37-56): look up `key` with `default`;
a string value under a sensitive key is revealed, falling back to the raw
value when `reveal` raises `ValueError`. -/
def BackendConfig.get (c : BackendConfig) (key : String) (default : Value) : Value :=
  let value := (alookup c.config key).getD default
  match value with
  | Value.vstr s =>
    if sensitiveKeys.contains key then
      match reveal s with
      | some plain => Value.vstr plain
      | none => Value.vstr s
    else Value.vstr s
  | v => v

/-- `BackendConfig.get_all` (config.py lines 58-77): every sensitive string
value is revealed (raw value on decode failure); all other entries pass
through unchanged. -/
def BackendConfig.get_all (c : BackendConfig) : List (String × Value) :=
  c.config.map (fun p =>
    match p.2 with
    | Value.vstr s =>
      if sensitiveKeys.contains p.1 then
        (p.1, Value.vstr ((reveal s).getD s))
      else p
    | _ => p)

/-!
## PyWebDAVConfigManager (config.py lines 80-188)

The persistence layer (`vaultconfig.ConfigManager`) is external; we model the
store state it owns as an in-memory association list from backend name to the
raw stored record, per the spec (section 3, BackendStore): a named collection
keyed by `name`, names unique, deterministic listing order.
-/

/-- The store state: backend name mapped to the raw on-disk record (the record
still contains the `"type"` entry and obscured secrets). -/
structure BackendStore where
  configs : List (String × List (String × Value))
deriving DecidableEq, Repr

/-- `list_backends` (config.py lines 97-103): the stored names, in the
store's deterministic order.  Modelled from the spec for the external
`list_configs`: stable, deterministic order. -/
def BackendStore.list_backends (st : BackendStore) : List String :=
  st.configs.map (fun p => p.1)

/-- `get_backend` (config.py lines 105-122): fetch the raw record, pop the
`"type"` entry (defaulting to `"local"`), and wrap the rest in a
`BackendConfig`. -/
def BackendStore.get_backend (st : BackendStore) (name : String) : Option BackendConfig :=
  match alookup st.configs name with
  | none => none
  | some data =>
    some { name := name
           backend_type := (alookup data "type").getD (Value.vstr "local")
           config := data.filter (fun p => p.1 != "type") }

/-- `has_backend` (config.py lines 124-133). -/
def BackendStore.has_backend (st : BackendStore) (name : String) : Bool :=
  st.configs.any (fun p => p.1 = name)

/-- The obscuring loop of `add_backend` (config.py lines 154-159): each
sensitive key whose value is a string and not already obscured is obscured in
place.  Expressed as a map, which agrees with the Python per-key assignment
loop on a unique-key dict. -/
def obscureSensitive (d : List (String × Value)) : List (String × Value) :=
  d.map (fun p =>
    if sensitiveKeys.contains p.1 then
      match p.2 with
      | Value.vstr s => (p.1, Value.vstr (if is_obscured s then s else obscure s))
      | v => (p.1, v)
    else p)

/-- `add_backend` (config.py lines 135-161): build
`{"type": backend_type, **config}`, obscure the sensitive entries when
`obscure_passwords` is set, and store the record under `name`, overwriting any
existing record of that name in full. -/
def BackendStore.add_backend (st : BackendStore) (name : String) (backend_type : String)
    (config : List (String × Value)) (obscure_passwords : Bool) : BackendStore :=
  let full_config := dictUnion [("type", Value.vstr backend_type)] config
  let full_config := if obscure_passwords then obscureSensitive full_config else full_config
  { configs := dictInsert st.configs name full_config }

/-- The raw stored record for `name`, as persisted (helper for stating
properties of `add_backend`). -/
def BackendStore.storedConfig (st : BackendStore) (name : String) :
    Option (List (String × Value)) :=
  alookup st.configs name

/-- `get_backend_names_by_type` (config.py lines 174-188): iterate over
`list_backends`, appending each name whose record loads and has the requested
type. -/
def BackendStore.get_backend_names_by_type (st : BackendStore) (backend_type : String) :
    List String :=
  st.list_backends.foldl
    (fun result name =>
      match st.get_backend name with
      | some backend =>
        if backend.backend_type = Value.vstr backend_type then result ++ [name] else result
      | none => result)
    []

/-!
## Constants (src/pywebdavserver/constants.py)

Modelled from the spec: the `constants` module is part of the repository but
not under src/; the spec only says the defaults exist (a documented default
root path, host, port, cache TTL and maximum file size).  The concrete values
below are placeholders; no claim depends on their specific values.
-/

/-- Modelled from the spec: the documented default root for the local
backend. -/
def DEFAULT_PATH : String := "."

/-- Modelled from the spec: default bind host. -/
def DEFAULT_HOST : String := "127.0.0.1"

/-- Modelled from the spec: default port. -/
def DEFAULT_PORT : Int := 8080

/-- Modelled from the spec: default cache TTL for the Drime backend (a
float). -/
def DEFAULT_CACHE_TTL : Value := Value.vfloat 60

/-- Modelled from the spec: default maximum file size in bytes. -/
def DEFAULT_MAX_FILE_SIZE : Int := 1073741824

/-!
## Resolution dispatcher (cli.py)
-/

/-- The process environment as consumed by the dispatcher:
`os.environ.get("DRIME_API_KEY")` (cli.py line 375), and whether the optional
`pydrime` dependency is importable (the try/except ImportError guards at
cli.py lines 246-255 and 363-372). -/
structure Env where
  drime_api_key : Option String
  pydrime_available : Bool
deriving DecidableEq, Repr

/-- The CLI options of the root `cli` command (cli.py lines 29-121), minus
`--verbose`, which only affects logging and is outside the model.  `click`
has already applied the option defaults when `cli` runs, so the fields hold
the effective values. -/
structure CliArgs where
  backend : Option String
  path : String
  host : String
  port : Int
  username : Option String
  password : Option String
  readonly : Bool
  cache_ttl : Value
  max_file_size : Int
  workspace_id : Int
  ssl_cert : Option String
  ssl_key : Option String
  no_auth : Bool
deriving DecidableEq, Repr

/-- `LocalStorageProvider(root_path=..., readonly=...)` construction
arguments (cli.py lines 242 and 358).  The provider implementation itself is
an external collaborator; the dispatcher only parameterizes it. -/
structure LocalProviderArgs where
  root_path : Value
  readonly : Value
deriving DecidableEq, Repr

/-- `DrimeDAVProvider(client=DrimeClient(api_key=...), workspace_id=...,
readonly=..., cache_ttl=..., max_file_size=...)` construction arguments
(cli.py lines 274-282 and 390-398). -/
structure DrimeProviderArgs where
  api_key : Value
  workspace_id : Value
  readonly : Value
  cache_ttl : Value
  max_file_size : Value
deriving DecidableEq, Repr

/-- The resolved provider handed to the server bootstrap. -/
inductive Provider where
  | localP : LocalProviderArgs → Provider
  | drimeP : DrimeProviderArgs → Provider
deriving DecidableEq, Repr

/-- Outcome of one dispatch: either `sys.exit(code)` after printing the given
diagnostics, or handoff to `run_webdav_server` with the constructed provider
and the effective connection parameters (cli.py lines 315-325 and 430-440). -/
inductive DispatchResult where
  | fatal (code : Nat) (messages : List String)
  | started (provider : Provider) (host : String) (port : Int)
      (username : Option String) (password : Option String)
      (ssl_cert : Option String) (ssl_key : Option String)
      (server_name : String)
deriving DecidableEq, Repr

/-- Python truthiness of an optional string CLI value (`click` passes `None`
for an omitted option; the empty string is also falsy). -/
def truthyS : Option String → Bool
  | none => false
  | some s => s ≠ ""

/-- Python `str.lower()`, modelled as a per-character map (it agrees with
Python on the ASCII type tokens compared by the dispatcher). -/
def pyLower (s : String) : String := String.mk (s.data.map Char.toLower)

/-- Warning printed when a username is supplied without a password (cli.py
lines 170-172). -/
def warnNoPassword : String :=
  "[yellow]Warning: Username provided but no password. Using anonymous access.[/yellow]"

/-- Warning printed when a password is supplied without a username (cli.py
lines 175-177). -/
def warnNoUsername : String :=
  "[yellow]Warning: Password provided but no username. Using anonymous access.[/yellow]"

/-- The authentication-flag handling of `cli` (cli.py lines 165-178):
`no_auth` clears both credentials; a half-supplied pair is downgraded to
anonymous with a warning.  Returns the resolved username, password, and the
warnings printed. -/
def resolveAuth (no_auth : Bool) (username password : Option String) :
    Option String × Option String × List String :=
  if no_auth then (none, none, [])
  else if truthyS username && !truthyS password then (none, password, [warnNoPassword])
  else if !truthyS username && truthyS password then (username, none, [warnNoUsername])
  else (username, password, [])

/-- Error printed when `pydrime` is not importable (cli.py lines 251-254 and
368-371). -/
def importErrorMsg : String :=
  "[red]Error: Drime backend requires pydrime to be installed.[/red]\nInstall it with: pip install \x27pywebdavserver[drime]\x27"

/-- Error printed by the named-config path when the stored drime record has a
falsy `api_key` (cli.py lines 265-268). -/
def drimeConfigKeyMsg (name : String) : String :=
  "[red]Error: Drime backend requires api_key in config.[/red]\nReconfigure with: pywebdavserver config add " ++ name

/-- Error printed by the named-config path on an unknown stored backend type
(cli.py line 286). -/
def unknownTypeConfigMsg (bt : Value) : String :=
  "[red]Error: Unknown backend type \x27" ++ bt.pyStr ++ "\x27[/red]"

/-- Error printed by the legacy path when `DRIME_API_KEY` is unset or empty
(cli.py lines 378-384). -/
def drimeEnvMsg : String :=
  "[red]Error: Drime backend requires DRIME_API_KEY environment variable.[/red]\nSet it with:\n  export DRIME_API_KEY=\x27your-api-key\x27\n\nOr configure a named backend:\n  pywebdavserver config add drime-personal"

/-- The diagnostics printed by the legacy path on an unknown backend type
(cli.py lines 402-407): the known built-in types followed by the stored
backend names as a hint. -/
def unknownBackendMsgs (backend_type : String) (storedNames : List String) : List String :=
  ["[red]Error: Unknown backend \x27" ++ backend_type ++ "\x27[/red]",
   "\nAvailable backends: local, drime",
   "\nOr use a configured backend:"]
  ++ storedNames.map (fun n => "  - " ++ n)

/-- `_start_from_config` (cli.py lines 216-329): build the provider entirely
from the stored record (revealed via `get_all`), using the CLI-supplied
connection parameters.  The drime branch first requires `pydrime` to be
importable, then a truthy `api_key` in the record. -/
def startFromConfig (env : Env) (bc : BackendConfig) (host : String) (port : Int)
    (username password ssl_cert ssl_key : Option String) : DispatchResult :=
  let config := bc.get_all
  if bc.backend_type = Value.vstr "local" then
    let root_path := (alookup config "path").getD (Value.vstr DEFAULT_PATH)
    let readonly := (alookup config "readonly").getD (Value.vbool false)
    DispatchResult.started (Provider.localP { root_path := root_path, readonly := readonly })
      host port username password ssl_cert ssl_key
      ("PyWebDAV Server (" ++ bc.name ++ ": " ++ root_path.pyStr ++ ")")
  else if bc.backend_type = Value.vstr "drime" then
    if !env.pydrime_available then
      DispatchResult.fatal 1 [importErrorMsg]
    else
      let api_key := (alookup config "api_key").getD Value.vnone
      let workspace_id := (alookup config "workspace_id").getD (Value.vint 0)
      let readonly := (alookup config "readonly").getD (Value.vbool false)
      let cache_ttl := (alookup config "cache_ttl").getD DEFAULT_CACHE_TTL
      let max_file_size := (alookup config "max_file_size").getD (Value.vint DEFAULT_MAX_FILE_SIZE)
      if !api_key.truthy then
        DispatchResult.fatal 1 [drimeConfigKeyMsg bc.name]
      else
        DispatchResult.started
          (Provider.drimeP { api_key := api_key, workspace_id := workspace_id,
                             readonly := readonly, cache_ttl := cache_ttl,
                             max_file_size := max_file_size })
          host port username password ssl_cert ssl_key
          ("PyWebDAV Server (" ++ bc.name ++ ": workspace " ++ workspace_id.pyStr ++ ")")
  else
    DispatchResult.fatal 1 [unknownTypeConfigMsg bc.backend_type]

/-- `_start_from_type` (cli.py lines 332-444): legacy mode, interpreting the
identifier as a backend type (case-insensitive).  `local` builds the provider
from the CLI flags; `drime` requires `pydrime` and sources the credential
exclusively from the `DRIME_API_KEY` environment variable; anything else is a
fatal error listing the known types and the stored backend names. -/
def startFromType (st : BackendStore) (env : Env) (backend_type : String)
    (path : String) (host : String) (port : Int)
    (username password : Option String) (readonly : Bool) (cache_ttl : Value)
    (max_file_size : Int) (workspace_id : Int)
    (ssl_cert ssl_key : Option String) : DispatchResult :=
  if pyLower backend_type = "local" then
    DispatchResult.started
      (Provider.localP { root_path := Value.vstr path, readonly := Value.vbool readonly })
      host port username password ssl_cert ssl_key
      ("PyWebDAV Server (Local: " ++ path ++ ")")
  else if pyLower backend_type = "drime" then
    if !env.pydrime_available then
      DispatchResult.fatal 1 [importErrorMsg]
    else if !truthyS env.drime_api_key then
      DispatchResult.fatal 1 [drimeEnvMsg]
    else
      DispatchResult.started
        (Provider.drimeP { api_key := Value.vstr (env.drime_api_key.getD ""),
                           workspace_id := Value.vint workspace_id,
                           readonly := Value.vbool readonly,
                           cache_ttl := cache_ttl,
                           max_file_size := Value.vint max_file_size })
        host port username password ssl_cert ssl_key
        ("PyWebDAV Server (Drime: workspace " ++ toString workspace_id ++ ")")
  else
    DispatchResult.fatal 1 (unknownBackendMsgs backend_type st.list_backends)

/-- The root `cli` command (cli.py lines 105-213) when no subcommand is
invoked: default the identifier to `"local"`, resolve the authentication
flags, then dispatch to the named-config path when the store has a record of
that name and to the legacy path otherwise.  Returns the warnings printed and
the dispatch outcome. -/
def cliDispatch (st : BackendStore) (env : Env) (args : CliArgs) :
    List String × DispatchResult :=
  let backend := args.backend.getD "local"
  let auth := resolveAuth args.no_auth args.username args.password
  let result :=
    match st.get_backend backend with
    | some bc =>
      startFromConfig env bc args.host args.port auth.1 auth.2.1 args.ssl_cert args.ssl_key
    | none =>
      startFromType st env backend args.path args.host args.port auth.1 auth.2.1
        args.readonly args.cache_ttl args.max_file_size args.workspace_id
        args.ssl_cert args.ssl_key
  (auth.2.2, result)

/-- The stored on-disk value for `key` in the record named `name` (helper for
stating properties of `add_backend`). -/
def BackendStore.storedValue (st : BackendStore) (name key : String) : Option Value :=
  (st.storedConfig name).bind (fun d => alookup d key)

/-- The predicate `get_backend_names_by_type` selects by: the record loads and
its `backend_type` equals the requested type. -/
def matchesType (st : BackendStore) (t : String) (name : String) : Bool :=
  match st.get_backend name with
  | some b => b.backend_type = Value.vstr t
  | none => false

/-!
## Concrete fixtures for the witnesses
-/

/-- A record holding an obscured secret, a plaintext secret and a plain
field, for exercising the reveal-or-passthrough rules. -/
def demoRecord : BackendConfig :=
  { name := "d", backend_type := Value.vstr "drime",
    config := [("api_key", Value.vstr (obscure "sek")),
               ("password", Value.vstr "plain"),
               ("path", Value.vstr "/x")] }

/-- A store with one `local` backend named `mylocal`, stored readonly with a
stored root path. -/
def demoStore : BackendStore :=
  ⟨[("mylocal", [("type", Value.vstr "local"), ("path", Value.vstr "/srv/data"),
                 ("readonly", Value.vbool true)])]⟩

/-- The record that `demoStore.get_backend "mylocal"` produces. -/
def demoBc : BackendConfig :=
  { name := "mylocal", backend_type := Value.vstr "local",
    config := [("path", Value.vstr "/srv/data"), ("readonly", Value.vbool true)] }

/-- An environment with `DRIME_API_KEY` unset and `pydrime` importable. -/
def demoEnv : Env := { drime_api_key := none, pydrime_available := true }

/-- A CLI invocation of the stored backend with overridden connection
parameters (the precedence example of the spec: `host=0.0.0.0, port=9999`). -/
def demoArgs : CliArgs :=
  { backend := some "mylocal", path := "/cli/path", host := "0.0.0.0", port := 9999,
    username := none, password := none, readonly := false,
    cache_ttl := Value.vfloat 60, max_file_size := 100, workspace_id := 5,
    ssl_cert := none, ssl_key := none, no_auth := false }

/-- The same invocation with every backend-specific CLI flag changed. -/
def demoArgs2 : CliArgs :=
  { demoArgs with path := "/other", readonly := true, cache_ttl := Value.vfloat 1,
                  max_file_size := 7, workspace_id := 9 }

/-- The invocation with a username but no password. -/
def demoArgsHalf : CliArgs := { demoArgs with username := some "alice" }

/-- A legacy invocation of the unstored type token `drime`. -/
def demoArgsDrime : CliArgs := { demoArgs with backend := some "drime" }

/-- An invocation of the unstored, unknown identifier `s3`. -/
def demoArgsS3 : CliArgs := { demoArgs with backend := some "s3" }

/-- An invocation with no backend identifier. -/
def demoArgsNone : CliArgs := { demoArgs with backend := none }

/-!
## Helper lemmas
-/

theorem reveal_obscure (s : String) : reveal (obscure s) = some s := by
  simp [reveal, obscure, is_obscured, List.take_left, List.drop_left]

theorem is_obscured_obscure (s : String) : is_obscured (obscure s) = true := by
  simp [obscure, is_obscured, List.take_left]

theorem truthyS_none : truthyS none = false := rfl

theorem alookup_dictInsert_self {α : Type} (d : List (String × α)) (k : String) (v : α) :
    alookup (dictInsert d k v) k = some v := by
  induction d with
  | nil => simp [dictInsert, alookup]
  | cons p rest ih =>
    by_cases h : p.1 = k
    · simp [dictInsert, h, alookup]
    · simp [dictInsert, h, alookup, ih]

theorem alookup_obscureSensitive (d : List (String × Value)) (k : String) :
    alookup (obscureSensitive d) k = (alookup d k).map (fun v =>
      if sensitiveKeys.contains k then
        match v with
        | Value.vstr s => Value.vstr (if is_obscured s then s else obscure s)
        | v => v
      else v) := by
  induction d with
  | nil => simp [obscureSensitive, alookup]
  | cons p rest ih =>
    by_cases h : p.1 = k
    · by_cases hs : sensitiveKeys.contains p.1
      · cases hv : p.2 <;> simp_all [obscureSensitive, alookup, h, hs]
      · simp_all [obscureSensitive, alookup, h, hs]
    · by_cases hs : sensitiveKeys.contains p.1
      · cases hv : p.2 <;> simp_all [obscureSensitive, alookup, h, hs]
      · simp_all [obscureSensitive, alookup, h, hs]

theorem foldl_filter_aux {α : Type} (p : α → Bool) (l acc : List α) :
    l.foldl (fun r x => if p x then r ++ [x] else r) acc = acc ++ l.filter p := by
  induction l generalizing acc with
  | nil => simp
  | cons x xs ih => by_cases h : p x <;> simp [h, ih]

/-!
## The claims
-/

/-- C1: on the named-config path, the resolved provider takes its readonly
flag and every backend-specific field (path, api key, workspace id, cache
TTL, max file size) from the stored record, the resolved connection takes the
CLI-supplied host, port, ssl_cert and ssl_key, and the CLI flags for path,
readonly, cache TTL, max file size and workspace id have no effect on the
outcome: two invocations differing only in those flags dispatch
identically. -/
theorem c1_named_config_precedence (st : BackendStore) (env : Env)
    (args args2 : CliArgs) (name : String) (bc : BackendConfig)
    (hb : args.backend = some name)
    (hget : st.get_backend name = some bc)
    (h2b : args2.backend = args.backend) (h2h : args2.host = args.host)
    (h2p : args2.port = args.port) (h2sc : args2.ssl_cert = args.ssl_cert)
    (h2sk : args2.ssl_key = args.ssl_key) (h2u : args2.username = args.username)
    (h2pw : args2.password = args.password) (h2na : args2.no_auth = args.no_auth) :
    cliDispatch st env args2 = cliDispatch st env args ∧
    (bc.backend_type = Value.vstr "local" →
      (cliDispatch st env args).2 = DispatchResult.started
        (Provider.localP
          { root_path := (alookup bc.get_all "path").getD (Value.vstr DEFAULT_PATH),
            readonly := (alookup bc.get_all "readonly").getD (Value.vbool false) })
        args.host args.port
        (resolveAuth args.no_auth args.username args.password).1
        (resolveAuth args.no_auth args.username args.password).2.1
        args.ssl_cert args.ssl_key
        ("PyWebDAV Server (" ++ bc.name ++ ": "
          ++ ((alookup bc.get_all "path").getD (Value.vstr DEFAULT_PATH)).pyStr ++ ")")) ∧
    (bc.backend_type = Value.vstr "drime" → env.pydrime_available = true →
      ((alookup bc.get_all "api_key").getD Value.vnone).truthy = true →
      (cliDispatch st env args).2 = DispatchResult.started
        (Provider.drimeP
          { api_key := (alookup bc.get_all "api_key").getD Value.vnone,
            workspace_id := (alookup bc.get_all "workspace_id").getD (Value.vint 0),
            readonly := (alookup bc.get_all "readonly").getD (Value.vbool false),
            cache_ttl := (alookup bc.get_all "cache_ttl").getD DEFAULT_CACHE_TTL,
            max_file_size :=
              (alookup bc.get_all "max_file_size").getD (Value.vint DEFAULT_MAX_FILE_SIZE) })
        args.host args.port
        (resolveAuth args.no_auth args.username args.password).1
        (resolveAuth args.no_auth args.username args.password).2.1
        args.ssl_cert args.ssl_key
        ("PyWebDAV Server (" ++ bc.name ++ ": workspace "
          ++ ((alookup bc.get_all "workspace_id").getD (Value.vint 0)).pyStr ++ ")")) := by
  refine ⟨?_, ?_, ?_⟩
  · simp only [cliDispatch, h2b, h2h, h2p, h2sc, h2sk, h2u, h2pw, h2na, hb,
      Option.getD_some, hget]
  · intro hlocal
    simp [cliDispatch, hb, hget, startFromConfig, hlocal]
  · intro hdrime hpy htr
    simp [cliDispatch, hb, hget, startFromConfig, hdrime, hpy, htr]

/-- Witness for C1: a stored `local` backend with `readonly=true` resolved
with CLI overrides `host=0.0.0.0, port=9999`; the provider is readonly with
the stored path, the connection is `0.0.0.0:9999`, and changing every
backend-specific CLI flag changes nothing. -/
theorem c1_named_config_precedence_witness :
    demoStore.get_backend "mylocal" = some demoBc ∧
    cliDispatch demoStore demoEnv demoArgs2 = cliDispatch demoStore demoEnv demoArgs ∧
    (cliDispatch demoStore demoEnv demoArgs).2 = DispatchResult.started
      (Provider.localP { root_path := Value.vstr "/srv/data", readonly := Value.vbool true })
      "0.0.0.0" 9999 none none none none "PyWebDAV Server (mylocal: /srv/data)" := by
  have h := c1_named_config_precedence demoStore demoEnv demoArgs demoArgs2 "mylocal" demoBc
    rfl (by decide) rfl rfl rfl rfl rfl rfl rfl rfl
  exact ⟨by decide, h.1, (h.2.1 (by decide)).trans (by decide)⟩

/-- C2: the secret codec round-trips: for every non-empty string `s`,
`reveal (obscure s)` recovers `s` in full. -/
theorem c2_codec_roundtrip (s : String) (h : s ≠ "") :
    reveal (obscure s) = some s := reveal_obscure s

/-- Witness for C2 at the concrete credential `hunter2`. -/
theorem c2_codec_roundtrip_witness :
    ("hunter2" : String) ≠ "" ∧ reveal (obscure "hunter2") = some "hunter2" :=
  ⟨by decide, c2_codec_roundtrip "hunter2" (by decide)⟩

/-- C3: `add_backend` with `obscure_passwords=true` stores, under each
sensitive key holding a string, the value obscured when it was not already
obscured and unchanged when it was; consequently adding the same plaintext
secret twice stores a token accepted by `is_obscured` that `reveal` maps back
to the original plaintext, with no double encoding. -/
theorem c3_add_backend_obscures (st : BackendStore) (name bt : String)
    (config : List (String × Value)) (key s : String)
    (hk : sensitiveKeys.contains key = true)
    (hv : alookup (dictUnion [("type", Value.vstr bt)] config) key = some (Value.vstr s)) :
    (st.add_backend name bt config true).storedValue name key
      = some (Value.vstr (if is_obscured s then s else obscure s)) ∧
    (is_obscured s = false →
      ∃ tok,
        ((st.add_backend name bt config true).add_backend name bt config true).storedValue
            name key = some (Value.vstr tok)
          ∧ is_obscured tok = true ∧ reveal tok = some s) := by
  have hk2 : key ∈ sensitiveKeys := by simpa using hk
  constructor
  · simp [BackendStore.storedValue, BackendStore.storedConfig, BackendStore.add_backend,
      alookup_dictInsert_self, alookup_obscureSensitive, hv, hk2]
  · intro hno
    refine ⟨obscure s, ?_, is_obscured_obscure s, reveal_obscure s⟩
    simp [BackendStore.storedValue, BackendStore.storedConfig, BackendStore.add_backend,
      alookup_dictInsert_self, alookup_obscureSensitive, hv, hk2, hno]

/-- Witness for C3: adding a drime backend with the plaintext api key `sek`
stores it obscured. -/
theorem c3_add_backend_obscures_witness :
    (sensitiveKeys.contains "api_key" = true) ∧
    (alookup (dictUnion [("type", Value.vstr "drime")] [("api_key", Value.vstr "sek")])
        "api_key" = some (Value.vstr "sek")) ∧
    ((BackendStore.mk []).add_backend "d" "drime" [("api_key", Value.vstr "sek")]
        true).storedValue "d" "api_key"
      = some (Value.vstr (if is_obscured "sek" then "sek" else obscure "sek")) := by
  refine ⟨by decide, by decide, ?_⟩
  exact (c3_add_backend_obscures (BackendStore.mk []) "d" "drime"
    [("api_key", Value.vstr "sek")] "api_key" "sek" (by decide) (by decide)).1

/-- C4: for a sensitive key stored as a string, `BackendConfig.get` returns
the revealed value when `reveal` succeeds and the raw stored value when it
fails (it is a total function, so it never raises); `get_all` applies the
same reveal-or-passthrough rule to every sensitive string entry and leaves
every other entry unchanged. -/
theorem c4_get_reveal_or_passthrough (c : BackendConfig) (d : Value) :
    (∀ key s, sensitiveKeys.contains key = true →
      alookup c.config key = some (Value.vstr s) →
      c.get key d = Value.vstr ((reveal s).getD s)) ∧
    (∀ k t, sensitiveKeys.contains k = true → (k, Value.vstr t) ∈ c.config →
      (k, Value.vstr ((reveal t).getD t)) ∈ c.get_all) ∧
    (∀ k v, (k, v) ∈ c.config →
      (sensitiveKeys.contains k = false ∨ ∀ t, v ≠ Value.vstr t) →
      (k, v) ∈ c.get_all) := by
  refine ⟨?_, ?_, ?_⟩
  · intro key s hk hs
    have hk2 : key ∈ sensitiveKeys := by simpa using hk
    cases hr : reveal s <;> simp [BackendConfig.get, hs, hk2, hr]
  · intro k t hk hm
    have hk2 : k ∈ sensitiveKeys := by simpa using hk
    have h1 := List.mem_map_of_mem (fun p : String × Value =>
      match p.2 with
      | Value.vstr s =>
        if sensitiveKeys.contains p.1 then (p.1, Value.vstr ((reveal s).getD s)) else p
      | _ => p) hm
    simpa [BackendConfig.get_all, hk2] using h1
  · intro k v hm hother
    have h1 := List.mem_map_of_mem (fun p : String × Value =>
      match p.2 with
      | Value.vstr s =>
        if sensitiveKeys.contains p.1 then (p.1, Value.vstr ((reveal s).getD s)) else p
      | _ => p) hm
    rcases hother with h | h
    · have h2 : k ∉ sensitiveKeys := by simpa using h
      cases v <;> simpa [BackendConfig.get_all, h2] using h1
    · cases hv : v <;> simp_all [BackendConfig.get_all]

/-- Witness for C4 on a record holding an obscured secret, a plaintext
secret and a plain field. -/
theorem c4_get_reveal_or_passthrough_witness :
    demoRecord.get "api_key" Value.vnone
      = Value.vstr ((reveal (obscure "sek")).getD (obscure "sek")) ∧
    ("password", Value.vstr ((reveal "plain").getD "plain")) ∈ demoRecord.get_all ∧
    ("path", Value.vstr "/x") ∈ demoRecord.get_all := by
  obtain ⟨h1, h2, h3⟩ := c4_get_reveal_or_passthrough demoRecord Value.vnone
  exact ⟨h1 "api_key" (obscure "sek") (by decide) (by decide),
         h2 "password" "plain" (by decide) (by decide),
         h3 "path" (Value.vstr "/x") (by decide) (Or.inl (by decide))⟩

/-- C5: with `no_auth` false and exactly one of the CLI username/password
pair supplied, resolution downgrades to anonymous access (both resolved
credentials are `None`), a warning is emitted, and dispatch proceeds exactly
as an anonymous invocation would; with `no_auth` true both credentials are
cleared regardless of what was supplied. -/
theorem c5_auth_downgrade (st : BackendStore) (env : Env) (args : CliArgs) :
    (args.no_auth = true →
      resolveAuth args.no_auth args.username args.password = (none, none, []) ∧
      (cliDispatch st env args).2
        = (cliDispatch st env { args with username := none, password := none }).2) ∧
    (args.no_auth = false →
      ((truthyS args.username = true ∧ args.password = none) ∨
       (args.username = none ∧ truthyS args.password = true)) →
      (resolveAuth args.no_auth args.username args.password).1 = none ∧
      (resolveAuth args.no_auth args.username args.password).2.1 = none ∧
      (cliDispatch st env args).1 ≠ [] ∧
      (cliDispatch st env args).2
        = (cliDispatch st env { args with username := none, password := none }).2) := by
  constructor
  · intro hna
    constructor
    · simp [resolveAuth, hna]
    · simp [cliDispatch, resolveAuth, hna]
  · intro hna hhalf
    rcases hhalf with ⟨hu, hp⟩ | ⟨hu, hp⟩
    · refine ⟨?_, ?_, ?_, ?_⟩ <;>
        simp [cliDispatch, resolveAuth, hna, hu, hp, truthyS_none]
    · refine ⟨?_, ?_, ?_, ?_⟩ <;>
        simp [cliDispatch, resolveAuth, hna, hu, hp, truthyS_none]

/-- Witness for C5: username `alice` with no password resolves to anonymous,
warns, and dispatches like the anonymous invocation. -/
theorem c5_auth_downgrade_witness :
    (resolveAuth demoArgsHalf.no_auth demoArgsHalf.username demoArgsHalf.password).1 = none ∧
    (resolveAuth demoArgsHalf.no_auth demoArgsHalf.username demoArgsHalf.password).2.1 = none ∧
    (cliDispatch demoStore demoEnv demoArgsHalf).1 ≠ [] ∧
    (cliDispatch demoStore demoEnv demoArgsHalf).2
      = (cliDispatch demoStore demoEnv
          { demoArgsHalf with username := none, password := none }).2 :=
  (c5_auth_downgrade demoStore demoEnv demoArgsHalf).2 rfl (Or.inl ⟨by decide, rfl⟩)

/-- C6: a legacy-path invocation of type `drime` (case-insensitive, with the
optional dependency importable) whose `DRIME_API_KEY` environment variable is
unset or empty dispatches to a fatal exit with code 1 carrying the
remediation text; no provider is constructed and no server starts, and the
outcome is independent of every CLI flag. -/
theorem c6_legacy_drime_env (st : BackendStore) (env : Env) (args : CliArgs) (b : String)
    (hb : args.backend.getD "local" = b)
    (hstore : st.get_backend b = none)
    (hlower : pyLower b = "drime")
    (hpy : env.pydrime_available = true)
    (hkey : env.drime_api_key = none ∨ env.drime_api_key = some "") :
    (cliDispatch st env args).2 = DispatchResult.fatal 1 [drimeEnvMsg] := by
  have hnl : pyLower b ≠ "local" := by rw [hlower]; decide
  rcases hkey with h | h <;>
    simp [cliDispatch, hb, hstore, startFromType, hlower, hnl, hpy, truthyS, h]

/-- Witness for C6: `--backend drime` with no stored record of that name and
`DRIME_API_KEY` unset. -/
theorem c6_legacy_drime_env_witness :
    (cliDispatch demoStore demoEnv demoArgsDrime).2 = DispatchResult.fatal 1 [drimeEnvMsg] :=
  c6_legacy_drime_env demoStore demoEnv demoArgsDrime "drime" rfl (by decide) (by decide)
    rfl (Or.inl rfl)

/-- C7: an identifier that is not a stored backend name and whose lowercase
form is neither `local` nor `drime` dispatches to a fatal exit with code 1,
printing the known built-in types and the names of all stored backends. -/
theorem c7_unknown_type (st : BackendStore) (env : Env) (args : CliArgs) (b : String)
    (hb : args.backend.getD "local" = b)
    (hstore : st.get_backend b = none)
    (hl : pyLower b ≠ "local")
    (hd : pyLower b ≠ "drime") :
    (cliDispatch st env args).2
      = DispatchResult.fatal 1 (unknownBackendMsgs b st.list_backends) := by
  simp [cliDispatch, hb, hstore, startFromType, hl, hd]

/-- Witness for C7: the unstored, unknown identifier `s3`. -/
theorem c7_unknown_type_witness :
    (cliDispatch demoStore demoEnv demoArgsS3).2
      = DispatchResult.fatal 1 (unknownBackendMsgs "s3" demoStore.list_backends) :=
  c7_unknown_type demoStore demoEnv demoArgsS3 "s3" rfl (by decide) (by decide) (by decide)

/-- C8: `get_backend_names_by_type t` returns exactly the names of
`list_backends` whose record loads with backend type `t`, in the order
`list_backends` returns them; names of a different type or that fail to load
are excluded. -/
theorem c8_filter_by_type (st : BackendStore) (t : String) :
    st.get_backend_names_by_type t = st.list_backends.filter (matchesType st t) ∧
    (∀ n, n ∈ st.get_backend_names_by_type t ↔
      n ∈ st.list_backends ∧ ∃ b, st.get_backend n = some b ∧ b.backend_type = Value.vstr t) := by
  have hbody : ∀ (r : List String) (n : String),
      (match st.get_backend n with
       | some b => if b.backend_type = Value.vstr t then r ++ [n] else r
       | none => r) = (if matchesType st t n then r ++ [n] else r) := by
    intro r n
    cases h : st.get_backend n with
    | none => simp [matchesType, h]
    | some b => by_cases hb : b.backend_type = Value.vstr t <;> simp [matchesType, h, hb]
  have heq : st.get_backend_names_by_type t = st.list_backends.filter (matchesType st t) := by
    unfold BackendStore.get_backend_names_by_type
    simp only [hbody]
    simpa using foldl_filter_aux (matchesType st t) st.list_backends []
  refine ⟨heq, ?_⟩
  intro n
  rw [heq, List.mem_filter]
  constructor
  · rintro ⟨hmem, hp⟩
    refine ⟨hmem, ?_⟩
    unfold matchesType at hp
    cases h : st.get_backend n with
    | none => rw [h] at hp; exact absurd hp (by simp)
    | some b =>
      rw [h] at hp
      exact ⟨b, rfl, by simpa using hp⟩
  · rintro ⟨hmem, b, hb, hbt⟩
    exact ⟨hmem, by simp [matchesType, hb, hbt]⟩

/-- C9: with no backend identifier supplied, dispatch behaves exactly as if
`local` had been requested: the named-config path when a backend named
`local` is stored, otherwise the legacy path building a local provider from
the CLI path flag. -/
theorem c9_default_backend_local (st : BackendStore) (env : Env) (args : CliArgs)
    (h : args.backend = none) :
    cliDispatch st env args = cliDispatch st env { args with backend := some "local" } ∧
    (st.get_backend "local" = none →
      (cliDispatch st env args).2 = DispatchResult.started
        (Provider.localP { root_path := Value.vstr args.path,
                           readonly := Value.vbool args.readonly })
        args.host args.port
        (resolveAuth args.no_auth args.username args.password).1
        (resolveAuth args.no_auth args.username args.password).2.1
        args.ssl_cert args.ssl_key
        ("PyWebDAV Server (Local: " ++ args.path ++ ")")) ∧
    (∀ bc, st.get_backend "local" = some bc →
      (cliDispatch st env args).2 = startFromConfig env bc args.host args.port
        (resolveAuth args.no_auth args.username args.password).1
        (resolveAuth args.no_auth args.username args.password).2.1
        args.ssl_cert args.ssl_key) := by
  have hlow : pyLower "local" = "local" := by decide
  refine ⟨?_, ?_, ?_⟩
  · simp [cliDispatch, h]
  · intro hnone
    simp [cliDispatch, h, hnone, startFromType, hlow]
  · intro bc hbc
    simp [cliDispatch, h, hbc]

/-- Witness for C9: no identifier with no stored `local` backend resolves the
legacy local provider from the CLI path flag. -/
theorem c9_default_backend_local_witness :
    cliDispatch demoStore demoEnv demoArgsNone
      = cliDispatch demoStore demoEnv { demoArgsNone with backend := some "local" } ∧
    (cliDispatch demoStore demoEnv demoArgsNone).2 = DispatchResult.started
      (Provider.localP { root_path := Value.vstr "/cli/path", readonly := Value.vbool false })
      "0.0.0.0" 9999 none none none none "PyWebDAV Server (Local: /cli/path)" := by
  have h := c9_default_backend_local demoStore demoEnv demoArgsNone rfl
  exact ⟨h.1, (h.2.1 (by decide)).trans (by decide)⟩

/-- C10: `BackendConfig.get` applies the reveal-or-passthrough rule to the
caller-supplied default as well: for a sensitive key absent from the record,
a string default that decodes is returned revealed, and a string default that
fails to decode is returned as-is. -/
theorem c10_default_revealed (c : BackendConfig) (key d : String)
    (hk : sensitiveKeys.contains key = true)
    (habs : alookup c.config key = none) :
    (∀ plain, reveal d = some plain → c.get key (Value.vstr d) = Value.vstr plain) ∧
    (reveal d = none → c.get key (Value.vstr d) = Value.vstr d) := by
  have hk2 : key ∈ sensitiveKeys := by simpa using hk
  constructor
  · intro plain hr
    simp [BackendConfig.get, habs, hk2, hr]
  · intro hr
    simp [BackendConfig.get, habs, hk2, hr]

/-- Witness for C10: an empty record queried for `password` with an obscured
default returns the revealed default. -/
theorem c10_default_revealed_witness :
    (BackendConfig.mk "e" (Value.vstr "local") []).get "password"
      (Value.vstr (obscure "topsecret")) = Value.vstr "topsecret" :=
  (c10_default_revealed (BackendConfig.mk "e" (Value.vstr "local") []) "password"
    (obscure "topsecret") (by decide) (by decide)).1 "topsecret" (by decide)

end PyWebDAVServer
